import Mathlib

/-!
# masstDB: connection validation and the backup/restore orchestrator

A shallow embedding of `internal/database/database.go`, of the connector
implementations, of `internal/backup/backup.go` and of the helpers `isBackupFile` and
`formatBytes` of the command layer, followed by the properties proved about them.

Go values are represented as follows.
* `string` is `String`; `strings.HasSuffix` compares the character lists.
* `error` is `Option Error`: `none` is `nil`, and `fmt.Errorf` with `%w`
  is the constructor `Error.wrap`.
* a function returning `(*T, error)` returns both components, so that the
  relation between them is a property to prove and not a fact of the type.
-/

namespace MasstDB

/-! ## Errors -/

/-- A Go `error` value: a message, or a message wrapped around a cause with `%w`. -/
inductive Error where
  | msg (text : String)
  | wrap (context : String) (cause : Error)
deriving DecidableEq, Repr

/-! ## internal/database/database.go -/

/-- Lookup in a Go map literal: a missing key yields the zero value of the element type. -/
def mapIndex {α : Type} (m : List (String × α)) (key : String) (zero : α) : α :=
  match m with
  | [] => zero
  | (k, v) :: rest => if k = key then v else mapIndex rest key zero

/-- Connection configuration, `type Config struct`. The field `Type` of the source is
named `DbType` here, `Type` being reserved. -/
structure Config where
  DbType : String
  Host : String
  Port : Int
  Username : String
  Password : String
  Database : String
deriving DecidableEq, Repr

/-- The map literal `validTypes` of `Config.Validate`. -/
def validTypes : List (String × Bool) :=
  [("postgres", true), ("mysql", true), ("mongodb", true), ("sqlite", true)]

/-- The method `Config.Validate`: `none` when the configuration is accepted. -/
def Config.Validate (c : Config) : Option Error :=
  if c.DbType = "" then
    some (Error.msg "database type is required")
  else if !(mapIndex validTypes c.DbType false) then
    some (Error.msg ("unsupported database type: " ++ c.DbType))
  else if c.Database = "" then
    some (Error.msg "database name is required")
  else if c.DbType = "sqlite" then
    none
  else if c.Host = "" then
    some (Error.msg ("host is required for " ++ c.DbType))
  else
    none

/-- The map literal `ports` of `DefaultPort`. -/
def ports : List (String × Int) :=
  [("postgres", 5432), ("mysql", 3306), ("mongodb", 27017), ("sqlite", 0)]

/-- The function `DefaultPort`. -/
def DefaultPort (dbType : String) : Int :=
  mapIndex ports dbType 0

/-! ## The environment of internal/backup/backup.go

The orchestrator talks to the operating system (`os.Create`, `os.Remove`,
`os.Stat`, `os.Open`), to `compress/gzip` and to a `database.Connector`.
None of these is code of the repository; each is represented by the smallest
state that the orchestrator can observe.
-/

/-- File contents and stream payloads: sequences of octets. -/
abbrev Bytes := List (Fin 256)

/-- A file system: directory entries map a path to an inode and inodes carry the
contents. An open file handle is the inode it was opened on, so that writing through
a handle whose entry has been unlinked reaches no path. There are no permissions
in this state: whether a file can be created or removed is an outcome chosen by
`IOFaults`. -/
structure FS where
  dir : String → Option Nat
  data : Nat → Bytes
  next : Nat

/-- Outcomes chosen by the environment for the calls that can fail for reasons the
file-system state does not record: `create` is the error of `os.Create` (missing
directory, permissions), `flush` the error the file reports when the compressor writes
its stream on `Close` (device full, I/O error), `stat` the error of `os.Stat`, `remove`
the error of `os.Remove` (a directory that cannot be written, a platform that refuses to
remove a file that is still open). Creating over an existing file needs the file to be
writable while removing needs the directory to be, so `create` and `remove` are
independent. -/
structure IOFaults where
  create : Option Error
  flush : Option Error
  stat : Option Error
  remove : Option Error := none

/-- No call fails. -/
def IOFaults.ok : IOFaults := { create := none, flush := none, stat := none }

/-- Replace the contents of an inode. -/
def FS.setData (fs : FS) (inode : Nat) (content : Bytes) : FS :=
  { fs with data := fun j => if j = inode then content else fs.data j }

/-- Bind a path to an inode. -/
def FS.link (fs : FS) (name : String) (inode : Option Nat) : FS :=
  { fs with dir := fun p => if p = name then inode else fs.dir p }

/-- The call `file.Write(p)` on an open handle: the bytes are appended to the inode. -/
def fileWrite (fs : FS) (file : Nat) (p : Bytes) : FS :=
  fs.setData file (fs.data file ++ p)

/-- The call `os.Create(name)`: open with create and truncate. An existing entry keeps
its inode and loses its contents; otherwise a new inode is linked. -/
def osCreate (io : IOFaults) (fs : FS) (name : String) : Except Error (Nat × FS) :=
  match io.create with
  | some err => Except.error err
  | none =>
    match fs.dir name with
    | some inode => Except.ok (inode, fs.setData inode [])
    | none =>
      Except.ok (fs.next, { (fs.link name (some fs.next)).setData fs.next [] with next := fs.next + 1 })

/-- The call `os.Remove(name)`: when the environment refuses, the error is returned and
nothing changes; otherwise the entry is unlinked, and the inode stays reachable through
handles that are still open. -/
def osRemove (io : IOFaults) (fs : FS) (name : String) : Option Error × FS :=
  match io.remove with
  | some err => (some err, fs)
  | none =>
    match fs.dir name with
    | some _ => (none, fs.link name none)
    | none => (some (Error.msg ("remove " ++ name ++ ": no such file or directory")), fs)

/-- The call `os.Stat(name)`, reduced to the size it reports. -/
def osStat (io : IOFaults) (fs : FS) (name : String) : Except Error Int :=
  match io.stat with
  | some err => Except.error err
  | none =>
    match fs.dir name with
    | some inode => Except.ok ((fs.data inode).length : Int)
    | none => Except.error (Error.msg ("stat " ++ name ++ ": no such file or directory"))

/-- The call `os.Open(name)`: a read handle on the inode of an existing entry. -/
def osOpen (fs : FS) (name : String) : Except Error Nat :=
  match fs.dir name with
  | some inode => Except.ok inode
  | none => Except.error (Error.msg ("open " ++ name ++ ": no such file or directory"))

/-- The call `file.Close()`: releases the handle; nothing is written. -/
def fileClose (fs : FS) (_file : Nat) : FS := fs

/-- What an `io.Reader` yields when read to its end: the bytes, then `io.EOF`
(`none`) or an error. -/
structure Source where
  bytes : Bytes
  err : Option Error
deriving DecidableEq, Repr

/-- The `compress/gzip` package as the orchestrator uses it: `compress` is the complete
stream a `gzip.Writer` has emitted once closed, `newReader` is `gzip.NewReader` applied
to a file with the given contents (an error for an invalid header, otherwise the
reader's output). -/
structure Gzip where
  compress : Bytes → Bytes
  newReader : Bytes → Except Error Source

/-- State of a `*gzip.Writer` over an open file: the bytes accepted so far, whether it
was closed, and its sticky error. -/
structure GzWriter where
  file : Nat
  buf : Bytes
  closed : Bool
  err : Option Error

/-- The call `gzip.NewWriter(file)`. -/
def gzipNewWriter (file : Nat) : GzWriter :=
  { file := file, buf := [], closed := false, err := none }

/-- The method `gzip.Writer.Write`: the bytes are taken into the compressor. -/
def GzWriter.Write (w : GzWriter) (p : Bytes) : GzWriter :=
  { w with buf := w.buf ++ p }

/-- The method `gzip.Writer.Close`: a writer holding an error returns it, a closed writer
returns `nil`, otherwise the stream is written to the file and the writer is closed. When
the file rejects the write the error sticks and the file is left as it was. -/
def GzWriter.Close (gz : Gzip) (io : IOFaults) (w : GzWriter) (fs : FS) :
    Option Error × GzWriter × FS :=
  match w.err with
  | some err => (some err, w, fs)
  | none =>
    if w.closed then (none, w, fs)
    else
      match io.flush with
      | some err => (some err, { w with closed := true, err := some err }, fs)
      | none => (none, { w with closed := true }, fileWrite fs w.file (gz.compress w.buf))

/-- Behaviour of one call of `connector.Backup(w)`: the bytes it writes to `w` and the
error it returns. -/
structure Dump where
  written : Bytes
  err : Option Error

/-- The part of `database.Connector` the orchestrator calls: `Type()` (named `DbType`),
`Backup(w)` and `Restore(r)`. -/
structure Connector where
  DbType : String
  Backup : Dump
  Restore : Source → Option Error

/-- The call `connector.Backup(writer)`, where `writer` is the gzip writer when there is
one and the file otherwise. -/
def connectorBackup (connector : Connector) (gzWriter : Option GzWriter) (file : Nat)
    (fs : FS) : Option Error × Option GzWriter × FS :=
  match gzWriter with
  | some w => (connector.Backup.err, some (w.Write connector.Backup.written), fs)
  | none => (connector.Backup.err, none, fileWrite fs file connector.Backup.written)

/-! ## internal/backup/backup.go -/

/-- Backup options, `type Options struct`. The field `Type` is named `BackupType`. -/
structure Options where
  BackupType : String
  OutputPath : String
  Compress : Bool
deriving DecidableEq, Repr

/-- Restore options, `type RestoreOptions struct`. -/
structure RestoreOptions where
  FilePath : String
  Tables : List String
deriving DecidableEq, Repr

/-- Result of a completed backup, `type Result struct`. -/
structure Result where
  FilePath : String
  Size : Int
deriving DecidableEq, Repr

/-- The method `Service.getExtension`. -/
def getExtension (dbType : String) : String :=
  match dbType with
  | "postgres" | "mysql" | "sqlite" => ".sql"
  | "mongodb" => ".archive"
  | _ => ".backup"

/-- The extension as the specification words it: `.sql` for the SQL-family engines and
the embedded-file engine, `.archive` for the document store, `.backup` otherwise. -/
def specExtension (k : String) : String :=
  if k = "postgres" ∨ k = "mysql" ∨ k = "sqlite" then ".sql"
  else if k = "mongodb" then ".archive"
  else ".backup"

/-- The output filename computed at the head of `Service.Backup` (lines 45 to 52). -/
def outputPathOf (connector : Connector) (opts : Options) : String :=
  let outputPath := opts.OutputPath
  let extension := getExtension connector.DbType
  let outputPath := outputPath ++ extension
  if opts.Compress then outputPath ++ ".gz" else outputPath

/-- What one call of `Service.Backup` leaves behind: the two returned values, the file
system, and the path handed to `os.Create` when that call succeeded. -/
structure BackupRun where
  result : Option Result
  err : Option Error
  fs : FS
  created : Option String

/-- The body of `Service.Backup` from the creation of the gzip writer to the `return`
(lines 61 to 95), without the deferred calls. -/
def backupBody (gz : Gzip) (io : IOFaults) (connector : Connector) (opts : Options)
    (outputPath : String) (file : Nat) (fs : FS) :
    (Option Result × Option Error) × Option GzWriter × FS :=
  let gzWriter : Option GzWriter := if opts.Compress then some (gzipNewWriter file) else none
  match connectorBackup connector gzWriter file fs with
  | (some err, gzWriter, fs) =>
    -- Clean up failed backup file
    ((none, some err), gzWriter, (osRemove io fs outputPath).2)
  | (none, gzWriter, fs) =>
    -- Ensure gzip is flushed
    let closed : Option Error × Option GzWriter × FS :=
      match gzWriter with
      | some w =>
        match w.Close gz io fs with
        | (cerr, w, fs) => (cerr, some w, fs)
      | none => (none, none, fs)
    match closed with
    | (some err, gzWriter, fs) =>
      ((none, some (Error.wrap "failed to close gzip writer: " err)), gzWriter, fs)
    | (none, gzWriter, fs) =>
      -- Get file info for size
      match osStat io fs outputPath with
      | Except.error err =>
        ((none, some (Error.wrap "failed to get file info: " err)), gzWriter, fs)
      | Except.ok size =>
        ((some { FilePath := outputPath, Size := size }, none), gzWriter, fs)

/-- The deferred calls of `Service.Backup`, last registered first: `gzWriter.Close()`
when a gzip writer was made, then `file.Close()`. Their results are dropped. -/
def backupDeferred (gz : Gzip) (io : IOFaults) (gzWriter : Option GzWriter) (file : Nat)
    (fs : FS) : FS :=
  let fs :=
    match gzWriter with
    | some w => (w.Close gz io fs).2.2
    | none => fs
  fileClose fs file

/-- The method `Service.Backup`. -/
def Backup (gz : Gzip) (io : IOFaults) (connector : Connector) (opts : Options) (fs : FS) :
    BackupRun :=
  let outputPath := outputPathOf connector opts
  match osCreate io fs outputPath with
  | Except.error err =>
    { result := none, err := some (Error.wrap "failed to create output file: " err),
      fs := fs, created := none }
  | Except.ok (file, fs) =>
    match backupBody gz io connector opts outputPath file fs with
    | ((result, err), gzWriter, fs) =>
      { result := result, err := err, fs := backupDeferred gz io gzWriter file fs,
        created := some outputPath }

/-- The function `strings.HasSuffix`. -/
def HasSuffix (s suffix : String) : Bool :=
  suffix.data.isSuffixOf s.data

/-- What one call of `Service.Restore` leaves behind: the returned error, the reader
handed to `connector.Restore` (`none` when the connector was not called) and the file
system. -/
structure RestoreRun where
  err : Option Error
  handed : Option Source
  fs : FS

/-- The method `Service.Restore`. -/
def Restore (gz : Gzip) (connector : Connector) (opts : RestoreOptions) (fs : FS) :
    RestoreRun :=
  match osOpen fs opts.FilePath with
  | Except.error err =>
    { err := some (Error.wrap "failed to open backup file: " err), handed := none, fs := fs }
  | Except.ok file =>
    -- reader = file
    let reader : Except Error Source :=
      if HasSuffix opts.FilePath ".gz" then
        match gz.newReader (fs.data file) with
        | Except.error err => Except.error (Error.wrap "failed to create gzip reader: " err)
        | Except.ok gzReader => Except.ok gzReader
      else
        Except.ok { bytes := fs.data file, err := none }
    match reader with
    | Except.error err => { err := some err, handed := none, fs := fileClose fs file }
    | Except.ok reader =>
      { err := connector.Restore reader, handed := some reader, fs := fileClose fs file }

/-! ## internal/database: the four implementations of `Connector` -/

/-- The type `PostgresConnector`. -/
structure PostgresConnector where
  config : Config
deriving DecidableEq, Repr

/-- The type `MySQLConnector`. -/
structure MySQLConnector where
  config : Config
deriving DecidableEq, Repr

/-- The type `SQLiteConnector`. -/
structure SQLiteConnector where
  config : Config
deriving DecidableEq, Repr

/-- The type `MongoDBConnector`. -/
structure MongoDBConnector where
  config : Config
deriving DecidableEq, Repr

/-- The function `NewPostgresConnector`: the connector and a `nil` error. -/
def NewPostgresConnector (config : Config) : PostgresConnector × Option Error :=
  ({ config := config }, none)

/-- The function `NewMySQLConnector`. -/
def NewMySQLConnector (config : Config) : MySQLConnector × Option Error :=
  ({ config := config }, none)

/-- The function `NewSQLiteConnector`. -/
def NewSQLiteConnector (config : Config) : SQLiteConnector × Option Error :=
  ({ config := config }, none)

/-- The function `NewMongoDBConnector`. -/
def NewMongoDBConnector (config : Config) : MongoDBConnector × Option Error :=
  ({ config := config }, none)

/-- The method `PostgresConnector.Type`. -/
def PostgresConnector.DbType (_p : PostgresConnector) : String := "postgres"

/-- The method `PostgresConnector.SupportsIncremental`. -/
def PostgresConnector.SupportsIncremental (_p : PostgresConnector) : Bool := false

/-- The method `MySQLConnector.Type`. -/
def MySQLConnector.DbType (_m : MySQLConnector) : String := "mysql"

/-- The method `MySQLConnector.SupportsIncremental`. -/
def MySQLConnector.SupportsIncremental (_m : MySQLConnector) : Bool := false

/-- The method `SQLiteConnector.Type`. -/
def SQLiteConnector.DbType (_s : SQLiteConnector) : String := "sqlite"

/-- The method `SQLiteConnector.SupportsIncremental`. -/
def SQLiteConnector.SupportsIncremental (_s : SQLiteConnector) : Bool := false

/-- The method `MongoDBConnector.Type`. -/
def MongoDBConnector.DbType (_m : MongoDBConnector) : String := "mongodb"

/-- The method `MongoDBConnector.SupportsIncremental`. -/
def MongoDBConnector.SupportsIncremental (_m : MongoDBConnector) : Bool := false

/-- A non-nil value of the interface `database.Connector` as `NewConnector` builds it:
one of the four implementations. -/
inductive ConnectorValue where
  | postgres (p : PostgresConnector)
  | mysql (m : MySQLConnector)
  | sqlite (s : SQLiteConnector)
  | mongodb (m : MongoDBConnector)
deriving DecidableEq, Repr

/-- Interface dispatch of `Type()`. -/
def ConnectorValue.DbType : ConnectorValue → String
  | ConnectorValue.postgres p => p.DbType
  | ConnectorValue.mysql m => m.DbType
  | ConnectorValue.sqlite s => s.DbType
  | ConnectorValue.mongodb m => m.DbType

/-- Interface dispatch of `SupportsIncremental()`. -/
def ConnectorValue.SupportsIncremental : ConnectorValue → Bool
  | ConnectorValue.postgres p => p.SupportsIncremental
  | ConnectorValue.mysql m => m.SupportsIncremental
  | ConnectorValue.sqlite s => s.SupportsIncremental
  | ConnectorValue.mongodb m => m.SupportsIncremental

/-- The function `NewConnector`: the interface value (`none` is `nil`) and the error. -/
def NewConnector (config : Config) : Option ConnectorValue × Option Error :=
  match config.DbType with
  | "postgres" =>
    match NewPostgresConnector config with
    | (p, err) => (some (ConnectorValue.postgres p), err)
  | "mysql" =>
    match NewMySQLConnector config with
    | (m, err) => (some (ConnectorValue.mysql m), err)
  | "sqlite" =>
    match NewSQLiteConnector config with
    | (s, err) => (some (ConnectorValue.sqlite s), err)
  | "mongodb" =>
    match NewMongoDBConnector config with
    | (m, err) => (some (ConnectorValue.mongodb m), err)
  | _ => (none, some (Error.msg ("unsupported database type: " ++ config.DbType)))

/-! ## internal/database/postgres.go: command lines -/

/-- The verb `%d` of `fmt.Sprintf` on an integer: its decimal rendering. -/
def sprintfD (n : Int) : String := toString n

/-- The slice `args` that `PostgresConnector.Backup` passes to `pg_dump`. -/
def PostgresConnector.backupArgs (p : PostgresConnector) : List String :=
  ["-h", p.config.Host,
   "-p", sprintfD p.config.Port,
   "-U", p.config.Username,
   "-d", p.config.Database,
   "-F", "p",
   "--no-password"]

/-- The method `PostgresConnector.buildPsqlArgs`. -/
def PostgresConnector.buildPsqlArgs (p : PostgresConnector) : List String :=
  ["-h", p.config.Host,
   "-p", sprintfD p.config.Port,
   "-U", p.config.Username,
   "-d", p.config.Database,
   "--no-password"]

/-- The slice `args` that `PostgresConnector.TestConnection` passes to `psql`. -/
def PostgresConnector.testConnectionArgs (p : PostgresConnector) : List String :=
  p.buildPsqlArgs ++ ["-c", "SELECT 1"]

/-- The slice `args` that `PostgresConnector.Restore` passes to `psql`. -/
def PostgresConnector.restoreArgs (p : PostgresConnector) : List String :=
  p.buildPsqlArgs

/-- The method `PostgresConnector.buildEnv`. -/
def PostgresConnector.buildEnv (p : PostgresConnector) : List String :=
  ["PGPASSWORD=" ++ p.config.Password]

/-! ## cmd/list.go and cmd/backup.go -/

/-- The slice `extensions` of `isBackupFile`. -/
def extensions : List String :=
  [".sql", ".sql.gz", ".dump", ".dump.gz", ".bson", ".bson.gz", ".db", ".db.gz"]

/-- The loop of `isBackupFile` over the remaining extensions. -/
def isBackupFileLoop (name : String) : List String → Bool
  | [] => false
  | ext :: rest => if HasSuffix name ext then true else isBackupFileLoop name rest

/-- The function `isBackupFile`. -/
def isBackupFile (name : String) : Bool :=
  isBackupFileLoop name extensions

/-- Arithmetic on `int64`: the value reduced to the range from -2^63 to 2^63 - 1. -/
def wrapInt64 (x : Int) : Int :=
  (x + 2 ^ 63) % 2 ^ 64 - 2 ^ 63

/-- The constant `unit` of `formatBytes`. -/
abbrev unit : Int := 1024

/-- The `for` loop of `formatBytes` from a state `(n, div, exp)`: the values of `div` and
`exp` when the loop exits. The division truncates toward zero and cannot overflow; the product is
taken in `int64`. -/
def formatBytesLoop (n div : Int) (exp : Nat) : Int × Nat :=
  if h : n ≥ unit then
    formatBytesLoop (Int.tdiv n unit) (wrapInt64 (div * unit)) (exp + 1)
  else
    (div, exp)
termination_by n.toNat
decreasing_by
  have h1 : (1024 : Int) ≤ n := h
  show (Int.tdiv n 1024).toNat < n.toNat
  rw [Int.tdiv_eq_ediv (by omega) (by decide)]
  omega

/-- What `formatBytes` returns: a finished string, or the arguments of the call
`fmt.Sprintf("%.1f %cB", float64(bytes)/float64(div), unit)`, whose floating-point
rendering is left out. -/
inductive Formatted where
  | text (s : String)
  | scaled (bytes div : Int) (unit : Char)
deriving DecidableEq, Repr

/-- The function `formatBytes`; `none` is the run-time panic of an index out of range. -/
def formatBytes (bytes : Int) : Option Formatted :=
  if bytes < unit then
    some (Formatted.text (sprintfD bytes ++ " B"))
  else
    match formatBytesLoop (Int.tdiv bytes unit) unit 0 with
    | (div, exp) =>
      match "KMGTPE".data[exp]? with
      | some c => some (Formatted.scaled bytes div c)
      | none => none

/-! ## Concrete inputs used to exercise the definitions -/

/-- An empty file system. -/
def emptyFS : FS := { dir := fun _ => none, data := fun _ => [], next := 0 }

/-- A file system holding an earlier artifact `/ro/out.sql` in a directory that cannot be
written. -/
def readOnlyDirFS : FS :=
  { dir := fun p => if p = "/ro/out.sql" then some 3 else none
    data := fun j => if j = 3 then [9, 9] else []
    next := 4 }

/-- A stand-in codec: the stream is the two gzip magic bytes followed by the data. -/
def storedGzip : Gzip :=
  { compress := fun b => 31 :: 139 :: b
    newReader := fun b =>
      match b with
      | 31 :: 139 :: rest => Except.ok { bytes := rest, err := none }
      | _ => Except.error (Error.msg "gzip: invalid header") }

/-- A connector of the given kind whose dump writes `written` and returns `err`, and
whose restore accepts every source. -/
def fixedConnector (kind : String) (written : Bytes) (err : Option Error) : Connector :=
  { DbType := kind, Backup := { written := written, err := err }, Restore := fun _ => none }


/-! ## Properties -/

theorem validTypes_index (t : String) :
    mapIndex validTypes t false = true ↔
      (t = "postgres" ∨ t = "mysql" ∨ t = "mongodb" ∨ t = "sqlite") := by
  simp only [validTypes, mapIndex]
  constructor
  · intro h
    split_ifs at h with h1 h2 h3 h4
    · exact Or.inl h1.symm
    · exact Or.inr (Or.inl h2.symm)
    · exact Or.inr (Or.inr (Or.inl h3.symm))
    · exact Or.inr (Or.inr (Or.inr h4.symm))
  · rintro (h | h | h | h) <;> subst h <;> decide

theorem getExtension_eq_spec (k : String) : getExtension k = specExtension k := by
  unfold getExtension specExtension
  split <;> simp_all

theorem validate_none_iff (c : Config) :
    c.Validate = none ↔
      ((c.DbType = "postgres" ∨ c.DbType = "mysql" ∨ c.DbType = "mongodb" ∨
          c.DbType = "sqlite") ∧
        c.Database ≠ "" ∧ (c.Host ≠ "" ∨ c.DbType = "sqlite")) := by
  have hv := validTypes_index c.DbType
  unfold Config.Validate
  by_cases h0 : c.DbType = ""
  · simp [h0]
  · by_cases h1 : mapIndex validTypes c.DbType false = true
    · have h4 := hv.mp h1
      by_cases h2 : c.Database = ""
      · simp [h0, h1, h2]
      · by_cases h3 : c.DbType = "sqlite"
        · have h6 : mapIndex validTypes "sqlite" false = true := by decide
          simp [h0, h2, h3, h6]
        · by_cases h5 : c.Host = ""
          · simp [h0, h1, h2, h3, h5]
          · simp only [h0, h1, h2, h3, h5]
            simp
            tauto
    · have h4 : ¬ (c.DbType = "postgres" ∨ c.DbType = "mysql" ∨ c.DbType = "mongodb" ∨
          c.DbType = "sqlite") := fun h => h1 (hv.mpr h)
      simp [h0, h1, h4]

/-- C1: `Config.Validate` returns an error exactly when the type is empty, or is not one
of the four kinds, or the database is empty, or the type is not sqlite and the host is
empty; equivalently it returns no error exactly when the type is one of the four kinds,
the database is non-empty and the host is non-empty or the type is sqlite. -/
theorem C1_validate_error_iff (c : Config) :
    (c.Validate ≠ none ↔
      (c.DbType = "" ∨
        ¬ (c.DbType = "postgres" ∨ c.DbType = "mysql" ∨ c.DbType = "mongodb" ∨
            c.DbType = "sqlite") ∨
        c.Database = "" ∨ (c.DbType ≠ "sqlite" ∧ c.Host = ""))) ∧
    (c.Validate = none ↔
      ((c.DbType = "postgres" ∨ c.DbType = "mysql" ∨ c.DbType = "mongodb" ∨
          c.DbType = "sqlite") ∧
        c.Database ≠ "" ∧ (c.Host ≠ "" ∨ c.DbType = "sqlite"))) := by
  refine ⟨?_, validate_none_iff c⟩
  rw [Ne, validate_none_iff]
  constructor
  · intro h
    by_contra hc
    push_neg at hc
    obtain ⟨-, h4, h2, h5⟩ := hc
    refine h ⟨h4, h2, ?_⟩
    by_cases h3 : c.DbType = "sqlite"
    · exact Or.inr h3
    · exact Or.inl (h5 h3)
  · rintro (h | h | h | ⟨h3, h5⟩) ⟨h4, h2, h6⟩
    · rw [h] at h4
      revert h4
      decide
    · exact h h4
    · exact h2 h
    · rcases h6 with h6 | h6
      · exact h6 h5
      · exact h3 h6

/-- C2: for a sqlite configuration the result of `Validate` does not depend on the host;
for postgres, mysql and mongodb with a non-empty database `Validate` fails when the
host is empty and succeeds when it is not; an empty type fails, postgres with an empty
database fails, postgres with database x and no host fails, sqlite with database x and
no host succeeds. -/
theorem C2_host_required_exactly_for_non_sqlite :
    (∀ (c : Config) (h : String), c.DbType = "sqlite" →
        ({ c with Host := h } : Config).Validate = c.Validate) ∧
    (∀ c : Config, (c.DbType = "postgres" ∨ c.DbType = "mysql" ∨ c.DbType = "mongodb") →
        c.Database ≠ "" →
          (c.Host = "" → c.Validate ≠ none) ∧ (c.Host ≠ "" → c.Validate = none)) ∧
    (∀ (h : String) (p : Int) (u w : String), (Config.mk "" h p u w "x").Validate ≠ none) ∧
    (∀ (h : String) (p : Int) (u w : String),
        (Config.mk "postgres" h p u w "").Validate ≠ none) ∧
    (∀ (p : Int) (u w : String), (Config.mk "postgres" "" p u w "x").Validate ≠ none) ∧
    (∀ (p : Int) (u w : String), (Config.mk "sqlite" "" p u w "x").Validate = none) := by
  refine ⟨?_, ?_, ?_, ?_, ?_, ?_⟩
  · intro c h hs
    simp [Config.Validate, hs]
  · intro c hk hd
    have hns : c.DbType ≠ "sqlite" := by
      rcases hk with hk | hk | hk <;> rw [hk] <;> decide
    constructor
    · intro hh hv
      rcases ((validate_none_iff c).mp hv).2.2 with h6 | h6
      · exact h6 hh
      · exact hns h6
    · intro hh
      refine (validate_none_iff c).mpr ⟨?_, hd, Or.inl hh⟩
      rcases hk with hk | hk | hk
      · exact Or.inl hk
      · exact Or.inr (Or.inl hk)
      · exact Or.inr (Or.inr (Or.inl hk))
  · intro h p u w
    simp [Config.Validate]
  · intro h p u w
    simp [Config.Validate, mapIndex, validTypes]
  · intro p u w
    simp [Config.Validate, mapIndex, validTypes]
  · intro p u w
    simp [Config.Validate, mapIndex, validTypes]

/-- C3: `DefaultPort` maps postgres to 5432, mysql to 3306, mongodb to 27017, sqlite
to 0, and every other string, the empty one included, to 0. -/
theorem C3_defaultPort_values :
    DefaultPort "postgres" = 5432 ∧ DefaultPort "mysql" = 3306 ∧
    DefaultPort "mongodb" = 27017 ∧ DefaultPort "sqlite" = 0 ∧ DefaultPort "" = 0 ∧
    (∀ k : String, k ≠ "postgres" → k ≠ "mysql" → k ≠ "mongodb" → k ≠ "sqlite" →
        DefaultPort k = 0) := by
  refine ⟨by decide, by decide, by decide, by decide, by decide, ?_⟩
  intro k h1 h2 h3 h4
  simp [DefaultPort, ports, mapIndex, Ne.symm h1, Ne.symm h2, Ne.symm h3, Ne.symm h4]

theorem hasSuffix_append_gz (s : String) : HasSuffix (s ++ ".gz") ".gz" = true := by
  simp [HasSuffix, List.isSuffixOf]

theorem hasSuffix_ext_gz (s : String) (k : String) :
    HasSuffix (s ++ getExtension k) ".gz" = false := by
  rw [getExtension_eq_spec]
  unfold specExtension
  split_ifs <;> simp [HasSuffix, List.isSuffixOf, List.isPrefixOf]

theorem outputPathOf_eq (connector : Connector) (opts : Options) :
    outputPathOf connector opts =
      opts.OutputPath ++ specExtension connector.DbType ++
        (if opts.Compress then ".gz" else "") := by
  unfold outputPathOf
  rw [getExtension_eq_spec]
  cases opts.Compress <;> simp

theorem hasSuffix_outputPathOf (connector : Connector) (opts : Options) :
    HasSuffix (outputPathOf connector opts) ".gz" = opts.Compress := by
  unfold outputPathOf
  cases opts.Compress
  · simpa using hasSuffix_ext_gz opts.OutputPath connector.DbType
  · simpa using hasSuffix_append_gz (opts.OutputPath ++ getExtension connector.DbType)

/-- The file `os.Create` makes is linked at the requested path and empty. -/
theorem osCreate_ok (io : IOFaults) (fs : FS) (name : String) (h : io.create = none) :
    ∃ file fs1, osCreate io fs name = Except.ok (file, fs1) ∧ fs1.dir name = some file ∧
      fs1.data file = [] := by
  unfold osCreate
  rw [h]
  cases hd : fs.dir name with
  | none => exact ⟨_, _, rfl, by simp [FS.link, FS.setData], by simp [FS.link, FS.setData]⟩
  | some i => exact ⟨_, _, rfl, by simp [FS.setData, hd], by simp [FS.setData]⟩

theorem osCreate_error (io : IOFaults) (fs : FS) (name : String) (e : Error)
    (h : io.create = some e) : osCreate io fs name = Except.error e := by
  unfold osCreate
  rw [h]

theorem backup_created (gz : Gzip) (io : IOFaults) (connector : Connector) (opts : Options)
    (fs : FS) :
    (Backup gz io connector opts fs).created =
      if io.create = none then some (outputPathOf connector opts) else none := by
  unfold Backup
  cases hc : io.create with
  | some e => simp [osCreate_error io fs _ e hc]
  | none =>
    obtain ⟨file, fs1, h1, -, -⟩ := osCreate_ok io fs (outputPathOf connector opts) hc
    simp [h1]

theorem close_dir (gz : Gzip) (io : IOFaults) (w : GzWriter) (fs : FS) :
    (w.Close gz io fs).2.2.dir = fs.dir := by
  unfold GzWriter.Close
  cases w.err <;> cases w.closed <;> cases io.flush <;> simp [fileWrite, FS.setData]

theorem backupDeferred_dir (gz : Gzip) (io : IOFaults) (w : Option GzWriter) (file : Nat)
    (fs : FS) : (backupDeferred gz io w file fs).dir = fs.dir := by
  unfold backupDeferred fileClose
  cases w with
  | none => rfl
  | some w => exact close_dir gz io w fs

theorem backup_dump_failed (gz : Gzip) (io : IOFaults) (connector : Connector)
    (opts : Options) (fs : FS) (e : Error) (hc : io.create = none)
    (he : connector.Backup.err = some e) :
    (Backup gz io connector opts fs).result = none ∧
    (Backup gz io connector opts fs).err = some e ∧
    ((Backup gz io connector opts fs).fs.dir (outputPathOf connector opts) = none ↔
      io.remove = none) := by
  obtain ⟨file, fs1, h1, h2, -⟩ := osCreate_ok io fs (outputPathOf connector opts) hc
  unfold Backup
  simp only [h1]
  unfold backupBody connectorBackup
  cases opts.Compress <;> cases hr : io.remove <;>
    simp [he, backupDeferred_dir, osRemove, hr, fileWrite, FS.setData, FS.link, h2]

/-- Creating a file links no other path. -/
theorem osCreate_frame (io : IOFaults) (fs : FS) (name : String) (file : Nat) (fs1 : FS)
    (h : osCreate io fs name = Except.ok (file, fs1)) (q : String) (hq : q ≠ name) :
    fs1.dir q = fs.dir q := by
  unfold osCreate at h
  cases hc : io.create with
  | some e => simp [hc] at h
  | none =>
    cases hd : fs.dir name with
    | some i =>
      simp only [hc, hd, Except.ok.injEq, Prod.mk.injEq] at h
      rw [← h.2]
      rfl
    | none =>
      simp only [hc, hd, Except.ok.injEq, Prod.mk.injEq] at h
      rw [← h.2]
      simp [FS.link, FS.setData, hq]

/-- Removing a file changes the entry of no other path. -/
theorem osRemove_frame (io : IOFaults) (fs : FS) (name q : String) (hq : q ≠ name) :
    (osRemove io fs name).2.dir q = fs.dir q := by
  unfold osRemove
  cases io.remove <;> cases fs.dir name <;> simp [FS.link, hq]

/-- The body of `Service.Backup` changes the entry of no path but the output path. -/
theorem backupBody_frame (gz : Gzip) (io : IOFaults) (connector : Connector)
    (opts : Options) (path : String) (file : Nat) (fs1 : FS) (q : String) (hq : q ≠ path) :
    (backupBody gz io connector opts path file fs1).2.2.dir q = fs1.dir q := by
  unfold backupBody connectorBackup
  cases opts.Compress <;> cases connector.Backup.err <;> cases hf : io.flush <;>
    simp [hf, GzWriter.Close, gzipNewWriter, GzWriter.Write, osRemove_frame io _ path q hq] <;>
    (try split) <;> simp [fileWrite, FS.setData]

/-- When the dump succeeds the body of `Service.Backup` changes no entry at all. -/
theorem backupBody_dump_ok_dir (gz : Gzip) (io : IOFaults) (connector : Connector)
    (opts : Options) (path : String) (file : Nat) (fs1 : FS)
    (he : connector.Backup.err = none) :
    (backupBody gz io connector opts path file fs1).2.2.dir = fs1.dir := by
  unfold backupBody connectorBackup
  cases opts.Compress <;> cases hf : io.flush <;>
    simp [he, hf, GzWriter.Close, gzipNewWriter, GzWriter.Write] <;>
    split <;> simp [fileWrite, FS.setData]

theorem backup_fs_of_create (gz : Gzip) (io : IOFaults) (connector : Connector)
    (opts : Options) (fs : FS) (file : Nat) (fs1 : FS)
    (h : osCreate io fs (outputPathOf connector opts) = Except.ok (file, fs1)) :
    (Backup gz io connector opts fs).fs.dir =
      (backupBody gz io connector opts (outputPathOf connector opts) file fs1).2.2.dir := by
  unfold Backup
  simp only [h]
  rw [backupDeferred_dir]

/-- `Service.Backup` changes the entry of no path but the output path. -/
theorem backup_dir_frame (gz : Gzip) (io : IOFaults) (connector : Connector)
    (opts : Options) (fs : FS) (q : String) (hq : q ≠ outputPathOf connector opts) :
    (Backup gz io connector opts fs).fs.dir q = fs.dir q := by
  cases hc : io.create with
  | some e =>
    unfold Backup
    simp [osCreate_error io fs _ e hc]
  | none =>
    obtain ⟨file, fs1, h1, -, -⟩ := osCreate_ok io fs (outputPathOf connector opts) hc
    rw [backup_fs_of_create gz io connector opts fs file fs1 h1,
      backupBody_frame gz io connector opts _ file fs1 q hq,
      osCreate_frame io fs _ file fs1 h1 q hq]

/-- When the file can be created and the dump succeeds, a file is linked at the output
path when `Service.Backup` returns, whatever happens afterwards. -/
theorem backup_dump_ok_linked (gz : Gzip) (io : IOFaults) (connector : Connector)
    (opts : Options) (fs : FS) (hc : io.create = none) (he : connector.Backup.err = none) :
    (Backup gz io connector opts fs).fs.dir (outputPathOf connector opts) ≠ none := by
  obtain ⟨file, fs1, h1, h2, -⟩ := osCreate_ok io fs (outputPathOf connector opts) hc
  rw [backup_fs_of_create gz io connector opts fs file fs1 h1,
    backupBody_dump_ok_dir gz io connector opts _ file fs1 he, h2]
  simp

/-- When the file cannot be created `Service.Backup` leaves the file system alone. -/
theorem backup_create_failed_fs (gz : Gzip) (io : IOFaults) (connector : Connector)
    (opts : Options) (fs : FS) (h : io.create ≠ none) :
    (Backup gz io connector opts fs).fs = fs := by
  cases hc : io.create with
  | none => exact absurd hc h
  | some e =>
    unfold Backup
    simp [osCreate_error io fs _ e hc]

theorem backup_result_xor_err (gz : Gzip) (io : IOFaults) (connector : Connector)
    (opts : Options) (fs : FS) :
    ((∃ r, (Backup gz io connector opts fs).result = some r) ∧
        (Backup gz io connector opts fs).err = none) ∨
    ((Backup gz io connector opts fs).result = none ∧
        ∃ e, (Backup gz io connector opts fs).err = some e) := by
  cases hc : io.create with
  | some e =>
    right
    unfold Backup
    simp [osCreate_error io fs _ e hc]
  | none =>
    obtain ⟨file, fs1, h1, h2, -⟩ := osCreate_ok io fs (outputPathOf connector opts) hc
    unfold Backup
    simp only [h1]
    unfold backupBody connectorBackup
    cases opts.Compress <;> cases connector.Backup.err <;> cases hf : io.flush <;>
      cases hs : io.stat <;>
      simp [osStat, hs, hf, h2, GzWriter.Close, gzipNewWriter, GzWriter.Write, fileWrite,
        FS.setData]

theorem backup_success (gz : Gzip) (io : IOFaults) (connector : Connector)
    (opts : Options) (fs : FS) (r : Result)
    (hr : (Backup gz io connector opts fs).result = some r) :
    r.FilePath = outputPathOf connector opts ∧
    connector.Backup.err = none ∧
    ∃ file, (Backup gz io connector opts fs).fs.dir (outputPathOf connector opts) = some file ∧
      (Backup gz io connector opts fs).fs.data file =
        (if opts.Compress then gz.compress connector.Backup.written
          else connector.Backup.written) ∧
      r.Size = ((Backup gz io connector opts fs).fs.data file).length := by
  cases hc : io.create with
  | some e =>
    unfold Backup at hr
    simp [osCreate_error io fs _ e hc] at hr
  | none =>
    obtain ⟨file, fs1, h1, h2, h3⟩ := osCreate_ok io fs (outputPathOf connector opts) hc
    unfold Backup at hr ⊢
    simp only [h1] at hr ⊢
    unfold backupBody connectorBackup at hr ⊢
    unfold backupDeferred fileClose
    revert hr
    cases opts.Compress <;> cases connector.Backup.err <;> cases hf : io.flush <;>
      cases hs : io.stat <;>
      simp [osStat, hs, hf, h2, h3, GzWriter.Close, gzipNewWriter, GzWriter.Write, fileWrite,
        FS.setData] <;>
      (intro hr; subst hr; simp)

theorem restore_handed (gz : Gzip) (connector : Connector) (opts : RestoreOptions) (fs : FS)
    (file : Nat) (ho : fs.dir opts.FilePath = some file) :
    (Restore gz connector opts fs).handed =
      (if HasSuffix opts.FilePath ".gz" then
        (match gz.newReader (fs.data file) with
          | Except.ok src => some src
          | Except.error _ => none)
       else some { bytes := fs.data file, err := none }) ∧
    (Restore gz connector opts fs).err =
      (if HasSuffix opts.FilePath ".gz" then
        (match gz.newReader (fs.data file) with
          | Except.ok src => connector.Restore src
          | Except.error e => some (Error.wrap "failed to create gzip reader: " e))
       else connector.Restore { bytes := fs.data file, err := none }) := by
  unfold Restore osOpen
  simp only [ho]
  cases HasSuffix opts.FilePath ".gz"
  · simp
  · cases gz.newReader (fs.data file) <;> simp

/-- C4: `Service.Backup` creates its artifact at the output stem followed by the
extension of the connector kind (`.sql` for postgres, mysql and sqlite, `.archive` for
mongodb, `.backup` for every other string) and by `.gz` when compression is requested,
and at no other path: that is the path handed to `os.Create`; it is the `FilePath` of
the result on success and then names an existing file; once the file is created and the
dump has succeeded a file is linked there; the entry of every other path is left as it
was; nothing changes when the file cannot be created. The path ends in `.gz` exactly
when compression is requested. -/
theorem C4_artifact_path (gz : Gzip) (io : IOFaults) (connector : Connector)
    (opts : Options) (fs : FS) :
    (Backup gz io connector opts fs).created =
      (if io.create = none then
        some (opts.OutputPath ++ specExtension connector.DbType ++
          (if opts.Compress then ".gz" else ""))
       else none) ∧
    (∀ r, (Backup gz io connector opts fs).result = some r →
      r.FilePath = opts.OutputPath ++ specExtension connector.DbType ++
          (if opts.Compress then ".gz" else "") ∧
        (Backup gz io connector opts fs).fs.dir r.FilePath ≠ none) ∧
    HasSuffix (opts.OutputPath ++ specExtension connector.DbType ++
      (if opts.Compress then ".gz" else "")) ".gz" = opts.Compress ∧
    (io.create = none → connector.Backup.err = none →
      (Backup gz io connector opts fs).fs.dir
        (opts.OutputPath ++ specExtension connector.DbType ++
          (if opts.Compress then ".gz" else "")) ≠ none) ∧
    (∀ q : String,
      q ≠ opts.OutputPath ++ specExtension connector.DbType ++
          (if opts.Compress then ".gz" else "") →
      (Backup gz io connector opts fs).fs.dir q = fs.dir q) ∧
    (io.create ≠ none → (Backup gz io connector opts fs).fs = fs) := by
  refine ⟨?_, ?_, ?_, ?_, ?_, ?_⟩
  · rw [backup_created, outputPathOf_eq]
  · intro r hr
    obtain ⟨h1, -, file, h2, -, -⟩ := backup_success gz io connector opts fs r hr
    rw [h1, h2, outputPathOf_eq]
    simp
  · rw [← outputPathOf_eq, hasSuffix_outputPathOf]
  · intro hc he
    rw [← outputPathOf_eq]
    exact backup_dump_ok_linked gz io connector opts fs hc he
  · intro q hq
    rw [← outputPathOf_eq] at hq
    exact backup_dir_frame gz io connector opts fs q hq
  · exact backup_create_failed_fs gz io connector opts fs

/-- A compressed mongodb backup of three bytes on an empty file system: the result names
`/data/shop.archive.gz`, a file is linked there afterwards, and neither the bare stem
nor the uncompressed name is linked. -/
theorem C4_artifact_path_witness :
    (∀ r, (Backup storedGzip IOFaults.ok (fixedConnector "mongodb" [4, 5, 6] none)
        { BackupType := "full", OutputPath := "/data/shop", Compress := true }
        emptyFS).result = some r → r.FilePath = "/data/shop.archive.gz") ∧
    (Backup storedGzip IOFaults.ok (fixedConnector "mongodb" [4, 5, 6] none)
        { BackupType := "full", OutputPath := "/data/shop", Compress := true }
        emptyFS).result ≠ none ∧
    (Backup storedGzip IOFaults.ok (fixedConnector "mongodb" [4, 5, 6] none)
        { BackupType := "full", OutputPath := "/data/shop", Compress := true }
        emptyFS).fs.dir "/data/shop.archive.gz" ≠ none ∧
    (Backup storedGzip IOFaults.ok (fixedConnector "mongodb" [4, 5, 6] none)
        { BackupType := "full", OutputPath := "/data/shop", Compress := true }
        emptyFS).fs.dir "/data/shop" = none ∧
    (Backup storedGzip IOFaults.ok (fixedConnector "mongodb" [4, 5, 6] none)
        { BackupType := "full", OutputPath := "/data/shop", Compress := true }
        emptyFS).fs.dir "/data/shop.archive" = none :=
  have h := C4_artifact_path storedGzip IOFaults.ok (fixedConnector "mongodb" [4, 5, 6] none)
    { BackupType := "full", OutputPath := "/data/shop", Compress := true } emptyFS
  ⟨fun r hr => (h.2.1 r hr).1, by decide, h.2.2.2.1 rfl rfl,
    h.2.2.2.2.1 "/data/shop" (by decide), h.2.2.2.2.1 "/data/shop.archive" (by decide)⟩

/-- C5: the artifact name depends only on the connector kind, the output stem and the
compress flag, so that equal inputs give equal names and equal created paths, and the
name with compression is the name without compression followed by `.gz`. -/
theorem C5_naming_deterministic :
    (∀ (c1 c2 : Connector) (o1 o2 : Options), c1.DbType = c2.DbType →
      o1.OutputPath = o2.OutputPath → o1.Compress = o2.Compress →
        outputPathOf c1 o1 = outputPathOf c2 o2 ∧
        ∀ (gz1 gz2 : Gzip) (io : IOFaults) (fs1 fs2 : FS),
          (Backup gz1 io c1 o1 fs1).created = (Backup gz2 io c2 o2 fs2).created) ∧
    (∀ (c : Connector) (o : Options),
      outputPathOf c { o with Compress := true } =
        outputPathOf c { o with Compress := false } ++ ".gz") := by
  constructor
  · intro c1 c2 o1 o2 hk hb hc
    have h : outputPathOf c1 o1 = outputPathOf c2 o2 := by
      unfold outputPathOf
      rw [hk, hb, hc]
    refine ⟨h, ?_⟩
    intro gz1 gz2 io fs1 fs2
    rw [backup_created, backup_created, h]
  · intro c o
    simp [outputPathOf]

/-- C6, as amended: when the artifact file can be created and the dump writes some
bytes and then returns the error e, `Service.Backup` returns no result and the error e
itself, unwrapped; it then calls `os.Remove` on the artifact path and drops the outcome,
so that no file exists at the artifact path afterwards exactly when that removal
succeeds. -/
theorem C6_failed_dump_cleanup (gz : Gzip) (io : IOFaults) (connector : Connector)
    (opts : Options) (fs : FS) (e : Error) (hc : io.create = none)
    (he : connector.Backup.err = some e) :
    (Backup gz io connector opts fs).result = none ∧
    (Backup gz io connector opts fs).err = some e ∧
    (Backup gz io connector opts fs).created = some (outputPathOf connector opts) ∧
    (io.remove = none →
      (Backup gz io connector opts fs).fs.dir (outputPathOf connector opts) = none) ∧
    (io.remove ≠ none →
      (Backup gz io connector opts fs).fs.dir (outputPathOf connector opts) ≠ none) := by
  obtain ⟨h1, h2, h3⟩ := backup_dump_failed gz io connector opts fs e hc he
  refine ⟨h1, h2, ?_, h3.mpr, fun hr hd => hr (h3.mp hd)⟩
  rw [backup_created, hc]
  simp

/-- A sqlite dump that writes three bytes and fails, with compression, on an empty file
system where removal succeeds: the error comes back unchanged and the artifact path is
unlinked. -/
theorem C6_failed_dump_cleanup_witness :
    (Backup storedGzip IOFaults.ok (fixedConnector "sqlite" [1, 2, 3] (some (Error.msg "exit status 1")))
        { BackupType := "full", OutputPath := "/tmp/out", Compress := true }
        emptyFS).err = some (Error.msg "exit status 1") ∧
    (Backup storedGzip IOFaults.ok (fixedConnector "sqlite" [1, 2, 3] (some (Error.msg "exit status 1")))
        { BackupType := "full", OutputPath := "/tmp/out", Compress := true }
        emptyFS).fs.dir "/tmp/out.sql.gz" = none :=
  have h := C6_failed_dump_cleanup storedGzip IOFaults.ok
    (fixedConnector "sqlite" [1, 2, 3] (some (Error.msg "exit status 1")))
    { BackupType := "full", OutputPath := "/tmp/out", Compress := true } emptyFS
    (Error.msg "exit status 1") rfl rfl
  ⟨h.2.1, h.2.2.2.1 rfl⟩

/-- C6, counterexample: the artifact `/ro/out.sql` exists and can be created over (it is
truncated), the postgres dump writes three bytes and fails, and `os.Remove` is refused;
`Service.Backup` returns the dump's error, and the file is still linked at the artifact
path, holding the three partial bytes. -/
theorem C6_unremovable_artifact_stays :
    ({ create := none, flush := none, stat := none,
       remove := some (Error.msg "remove /ro/out.sql: permission denied") } : IOFaults).create =
      none ∧
    (fixedConnector "postgres" [1, 2, 3] (some (Error.msg "exit status 1"))).Backup.err =
      some (Error.msg "exit status 1") ∧
    (Backup storedGzip
        { create := none, flush := none, stat := none,
          remove := some (Error.msg "remove /ro/out.sql: permission denied") }
        (fixedConnector "postgres" [1, 2, 3] (some (Error.msg "exit status 1")))
        { BackupType := "full", OutputPath := "/ro/out", Compress := false }
        readOnlyDirFS).err = some (Error.msg "exit status 1") ∧
    (Backup storedGzip
        { create := none, flush := none, stat := none,
          remove := some (Error.msg "remove /ro/out.sql: permission denied") }
        (fixedConnector "postgres" [1, 2, 3] (some (Error.msg "exit status 1")))
        { BackupType := "full", OutputPath := "/ro/out", Compress := false }
        readOnlyDirFS).fs.dir "/ro/out.sql" = some 3 ∧
    (Backup storedGzip
        { create := none, flush := none, stat := none,
          remove := some (Error.msg "remove /ro/out.sql: permission denied") }
        (fixedConnector "postgres" [1, 2, 3] (some (Error.msg "exit status 1")))
        { BackupType := "full", OutputPath := "/ro/out", Compress := false }
        readOnlyDirFS).fs.data 3 = [1, 2, 3] ∧
    ¬ (∀ (gz : Gzip) (io : IOFaults) (connector : Connector) (opts : Options) (fs : FS)
        (e : Error), io.create = none → connector.Backup.err = some e →
        (Backup gz io connector opts fs).result = none ∧
        (Backup gz io connector opts fs).err = some e ∧
        (Backup gz io connector opts fs).fs.dir (outputPathOf connector opts) = none) := by
  refine ⟨rfl, rfl, by decide, by decide, by decide, ?_⟩
  intro h
  have h3 := (h storedGzip
    { create := none, flush := none, stat := none,
      remove := some (Error.msg "remove /ro/out.sql: permission denied") }
    (fixedConnector "postgres" [1, 2, 3] (some (Error.msg "exit status 1")))
    { BackupType := "full", OutputPath := "/ro/out", Compress := false }
    readOnlyDirFS (Error.msg "exit status 1") rfl rfl).2.2
  revert h3
  decide

/-- C7: evaluation of `Service.Backup` where the dump succeeds and finalizing the
compressor fails, and where reading the size fails: an error is returned, there is no
result, and the artifact file is still linked at its path. -/
theorem C7_failure_after_dump_keeps_artifact :
    ((Backup storedGzip
        { create := none, flush := some (Error.msg "no space left on device"), stat := none }
        (fixedConnector "postgres" [1, 2, 3] none)
        { BackupType := "full", OutputPath := "/tmp/out", Compress := true } emptyFS).result = none ∧
      (Backup storedGzip
        { create := none, flush := some (Error.msg "no space left on device"), stat := none }
        (fixedConnector "postgres" [1, 2, 3] none)
        { BackupType := "full", OutputPath := "/tmp/out", Compress := true } emptyFS).err =
        some (Error.wrap "failed to close gzip writer: " (Error.msg "no space left on device")) ∧
      (Backup storedGzip
        { create := none, flush := some (Error.msg "no space left on device"), stat := none }
        (fixedConnector "postgres" [1, 2, 3] none)
        { BackupType := "full", OutputPath := "/tmp/out", Compress := true }
        emptyFS).fs.dir "/tmp/out.sql.gz" = some 0) ∧
    ((Backup storedGzip
        { create := none, flush := none, stat := some (Error.msg "input/output error") }
        (fixedConnector "postgres" [1, 2, 3] none)
        { BackupType := "full", OutputPath := "/tmp/out", Compress := false } emptyFS).result = none ∧
      (Backup storedGzip
        { create := none, flush := none, stat := some (Error.msg "input/output error") }
        (fixedConnector "postgres" [1, 2, 3] none)
        { BackupType := "full", OutputPath := "/tmp/out", Compress := false } emptyFS).err =
        some (Error.wrap "failed to get file info: " (Error.msg "input/output error")) ∧
      (Backup storedGzip
        { create := none, flush := none, stat := some (Error.msg "input/output error") }
        (fixedConnector "postgres" [1, 2, 3] none)
        { BackupType := "full", OutputPath := "/tmp/out", Compress := false }
        emptyFS).fs.dir "/tmp/out.sql" = some 0) := by
  decide

/-- C8: `Service.Backup` returns either a result and no error, or no result and an
error. -/
theorem C8_result_iff_no_error (gz : Gzip) (io : IOFaults) (connector : Connector)
    (opts : Options) (fs : FS) :
    ((∃ r, (Backup gz io connector opts fs).result = some r) ∧
        (Backup gz io connector opts fs).err = none) ∨
    ((Backup gz io connector opts fs).result = none ∧
        ∃ e, (Backup gz io connector opts fs).err = some e) :=
  backup_result_xor_err gz io connector opts fs

/-- C10: for a path that opens, `Service.Restore` hands the connector the output of
the gzip reader over the file when the path ends in `.gz` (and does not call the
connector when the gzip header is rejected), and the bytes of the file unchanged when
the path does not end in `.gz`; the choice depends on the path alone. -/
theorem C10_decompression_by_name (gz : Gzip) (connector : Connector)
    (opts : RestoreOptions) (fs : FS) (file : Nat)
    (ho : osOpen fs opts.FilePath = Except.ok file) :
    (HasSuffix opts.FilePath ".gz" = true →
      (∀ src, gz.newReader (fs.data file) = Except.ok src →
        (Restore gz connector opts fs).handed = some src ∧
        (Restore gz connector opts fs).err = connector.Restore src) ∧
      (∀ e, gz.newReader (fs.data file) = Except.error e →
        (Restore gz connector opts fs).handed = none ∧
        (Restore gz connector opts fs).err =
          some (Error.wrap "failed to create gzip reader: " e))) ∧
    (HasSuffix opts.FilePath ".gz" = false →
      (Restore gz connector opts fs).handed = some { bytes := fs.data file, err := none } ∧
      (Restore gz connector opts fs).err =
        connector.Restore { bytes := fs.data file, err := none }) := by
  have hd : fs.dir opts.FilePath = some file := by
    unfold osOpen at ho
    cases h : fs.dir opts.FilePath with
    | none => simp [h] at ho
    | some i =>
      simp only [h, Except.ok.injEq] at ho
      rw [ho]
  have h := restore_handed gz connector opts fs file hd
  rw [h.1, h.2]
  refine ⟨fun hs => ⟨?_, ?_⟩, fun hs => ?_⟩
  · intro src hsrc
    simp [hs, hsrc]
  · intro e he
    simp [hs, he]
  · simp [hs]

/-- The same four bytes under a name without and with the `.gz` suffix: handed over
unchanged in the first case, through the gzip reader in the second. -/
theorem C10_decompression_by_name_witness :
    (Restore storedGzip (fixedConnector "mysql" [] none)
        { FilePath := "/backups/db.sql", Tables := [] }
        { dir := fun p => if p = "/backups/db.sql" then some 7 else none,
          data := fun _ => [31, 139, 1, 2], next := 8 }).handed =
      some { bytes := [31, 139, 1, 2], err := none } ∧
    (Restore storedGzip (fixedConnector "mysql" [] none)
        { FilePath := "/backups/db.sql.gz", Tables := [] }
        { dir := fun p => if p = "/backups/db.sql.gz" then some 7 else none,
          data := fun _ => [31, 139, 1, 2], next := 8 }).handed =
      some { bytes := [1, 2], err := none } :=
  ⟨((C10_decompression_by_name storedGzip (fixedConnector "mysql" [] none)
      { FilePath := "/backups/db.sql", Tables := [] }
      { dir := fun p => if p = "/backups/db.sql" then some 7 else none,
        data := fun _ => [31, 139, 1, 2], next := 8 } 7 rfl).2 (by decide)).1,
   (((C10_decompression_by_name storedGzip (fixedConnector "mysql" [] none)
      { FilePath := "/backups/db.sql.gz", Tables := [] }
      { dir := fun p => if p = "/backups/db.sql.gz" then some 7 else none,
        data := fun _ => [31, 139, 1, 2], next := 8 } 7 rfl).1 (by decide)).1
      { bytes := [1, 2], err := none } rfl).1⟩

/-- C11: `Service.Restore` leaves the file system as it found it, whether the file
cannot be opened, the gzip header is rejected, or the connector succeeds or fails; in
particular the entry at `FilePath` and the contents behind it are the same after the
call as before it. -/
theorem C11_restore_leaves_artifact (gz : Gzip) (connector : Connector)
    (opts : RestoreOptions) (fs : FS) :
    (Restore gz connector opts fs).fs = fs ∧
    (Restore gz connector opts fs).fs.dir opts.FilePath = fs.dir opts.FilePath ∧
    (∀ file, fs.dir opts.FilePath = some file →
      (Restore gz connector opts fs).fs.data file = fs.data file) := by
  have h : (Restore gz connector opts fs).fs = fs := by
    unfold Restore
    cases osOpen fs opts.FilePath with
    | error e => rfl
    | ok file =>
      simp only
      cases HasSuffix opts.FilePath ".gz"
      · rfl
      · cases gz.newReader (fs.data file) <;> rfl
  refine ⟨h, ?_, ?_⟩
  · rw [h]
  · intro file _
    rw [h]

/-- C12: the table filter is not read: two `RestoreOptions` with the same `FilePath` and
any two `Tables` give the same source to the connector, the same returned error and the
same file system. -/
theorem C12_tables_ignored (gz : Gzip) (connector : Connector) (fs : FS)
    (path : String) (tables1 tables2 : List String) :
    (Restore gz connector { FilePath := path, Tables := tables1 } fs).handed =
      (Restore gz connector { FilePath := path, Tables := tables2 } fs).handed ∧
    (Restore gz connector { FilePath := path, Tables := tables1 } fs).err =
      (Restore gz connector { FilePath := path, Tables := tables2 } fs).err ∧
    (Restore gz connector { FilePath := path, Tables := tables1 } fs).fs =
      (Restore gz connector { FilePath := path, Tables := tables2 } fs).fs :=
  ⟨rfl, rfl, rfl⟩

/-- C13: the backup kind is not read: two `Options` with the same `OutputPath` and
`Compress` and any two `Type` strings make `Service.Backup` create the same path, run
the same body around the same call of `connector.Backup`, and return the same result,
error and file system. -/
theorem C13_backup_type_ignored (gz : Gzip) (io : IOFaults) (connector : Connector)
    (fs : FS) (stem : String) (compress : Bool) (type1 type2 : String) :
    Backup gz io connector { BackupType := type1, OutputPath := stem, Compress := compress } fs =
      Backup gz io connector { BackupType := type2, OutputPath := stem, Compress := compress } fs ∧
    outputPathOf connector { BackupType := type1, OutputPath := stem, Compress := compress } =
      outputPathOf connector { BackupType := type2, OutputPath := stem, Compress := compress } ∧
    (∀ (path : String) (file : Nat) (fs1 : FS),
      backupBody gz io connector
          { BackupType := type1, OutputPath := stem, Compress := compress } path file fs1 =
        backupBody gz io connector
          { BackupType := type2, OutputPath := stem, Compress := compress } path file fs1) :=
  ⟨rfl, rfl, fun _ _ _ => rfl⟩

/-- C14: for a configuration whose type is postgres, mysql, mongodb or sqlite,
`NewConnector` returns a connector and no error, the connector reports that it does not
support incremental backups, and its type is the type of the configuration. -/
theorem C14_no_variant_supports_incremental (config : Config)
    (hk : config.DbType = "postgres" ∨ config.DbType = "mysql" ∨
      config.DbType = "mongodb" ∨ config.DbType = "sqlite") :
    ∃ c, NewConnector config = (some c, none) ∧ c.SupportsIncremental = false ∧
      c.DbType = config.DbType := by
  rcases hk with hk | hk | hk | hk
  · exact ⟨ConnectorValue.postgres { config := config },
      by simp [NewConnector, hk, NewPostgresConnector], rfl, hk.symm⟩
  · exact ⟨ConnectorValue.mysql { config := config },
      by simp [NewConnector, hk, NewMySQLConnector], rfl, hk.symm⟩
  · exact ⟨ConnectorValue.mongodb { config := config },
      by simp [NewConnector, hk, NewMongoDBConnector], rfl, hk.symm⟩
  · exact ⟨ConnectorValue.sqlite { config := config },
      by simp [NewConnector, hk, NewSQLiteConnector], rfl, hk.symm⟩

/-- A mongodb configuration: the connector built for it is the mongodb variant, without
error, and does not support incremental backups. -/
theorem C14_no_variant_supports_incremental_witness :
    ∃ c, NewConnector (Config.mk "mongodb" "localhost" 27017 "" "" "shop") = (some c, none) ∧
      c.SupportsIncremental = false ∧ c.DbType = "mongodb" :=
  C14_no_variant_supports_incremental (Config.mk "mongodb" "localhost" 27017 "" "" "shop")
    (Or.inr (Or.inr (Or.inl rfl)))

/-- C15: the argument lists the PostgreSQL connector builds for `pg_dump` and for `psql`
(restore and connection test) do not change when only the password of the configuration
changes, each contains `--no-password`, the list for `pg_dump` contains `-F` followed by
`p`, and `buildEnv` is the one-element list holding `PGPASSWORD=` followed by the
password. -/
theorem C15_postgres_password_only_in_env (c : Config) (password : String) :
    (PostgresConnector.mk { c with Password := password }).backupArgs =
      (PostgresConnector.mk c).backupArgs ∧
    (PostgresConnector.mk { c with Password := password }).restoreArgs =
      (PostgresConnector.mk c).restoreArgs ∧
    (PostgresConnector.mk { c with Password := password }).testConnectionArgs =
      (PostgresConnector.mk c).testConnectionArgs ∧
    "--no-password" ∈ (PostgresConnector.mk c).backupArgs ∧
    "--no-password" ∈ (PostgresConnector.mk c).restoreArgs ∧
    "--no-password" ∈ (PostgresConnector.mk c).testConnectionArgs ∧
    ["-F", "p"] <:+: (PostgresConnector.mk c).backupArgs ∧
    (PostgresConnector.mk c).buildEnv = ["PGPASSWORD=" ++ c.Password] ∧
    (PostgresConnector.mk { c with Password := password }).buildEnv =
      ["PGPASSWORD=" ++ password] := by
  refine ⟨rfl, rfl, rfl, ?_, ?_, ?_, ?_, rfl, rfl⟩
  · simp [PostgresConnector.backupArgs]
  · simp [PostgresConnector.restoreArgs, PostgresConnector.buildPsqlArgs]
  · simp [PostgresConnector.testConnectionArgs, PostgresConnector.buildPsqlArgs]
  · exact ⟨["-h", c.Host, "-p", sprintfD c.Port, "-U", c.Username, "-d", c.Database],
      ["--no-password"], rfl⟩

theorem isBackupFile_archive (stem : String) :
    isBackupFile (stem ++ ".archive") = false ∧
    isBackupFile (stem ++ ".archive" ++ ".gz") = false := by
  constructor <;>
    simp [isBackupFile, isBackupFileLoop, extensions, HasSuffix, List.isSuffixOf,
      List.isPrefixOf]

theorem isBackupFile_fallback (stem : String) :
    isBackupFile (stem ++ ".backup") = false ∧
    isBackupFile (stem ++ ".backup" ++ ".gz") = false := by
  constructor <;>
    simp [isBackupFile, isBackupFileLoop, extensions, HasSuffix, List.isSuffixOf,
      List.isPrefixOf]

theorem isBackupFile_sql (stem : String) :
    isBackupFile (stem ++ ".sql") = true ∧
    isBackupFile (stem ++ ".sql" ++ ".gz") = true := by
  constructor <;>
    simp [isBackupFile, isBackupFileLoop, extensions, HasSuffix, List.isSuffixOf,
      List.isPrefixOf]

/-- C16: evaluation of `isBackupFile` on the names `Service.Backup` produces: the names
of postgres, mysql and sqlite artifacts are accepted, while every name produced for a
mongodb connector, and every name produced for an unrecognized kind, is rejected, with
or without compression. -/
theorem C16_archive_artifacts_not_listed :
    isBackupFile (outputPathOf (fixedConnector "mongodb" [] none)
      { BackupType := "full", OutputPath := "shop_full_20240101_120000", Compress := true }) =
        false ∧
    (∀ (connector : Connector) (opts : Options), connector.DbType = "mongodb" →
      isBackupFile (outputPathOf connector opts) = false) ∧
    (∀ (connector : Connector) (opts : Options),
      connector.DbType ≠ "postgres" → connector.DbType ≠ "mysql" →
      connector.DbType ≠ "sqlite" → connector.DbType ≠ "mongodb" →
      isBackupFile (outputPathOf connector opts) = false) ∧
    (∀ (connector : Connector) (opts : Options),
      (connector.DbType = "postgres" ∨ connector.DbType = "mysql" ∨
        connector.DbType = "sqlite") →
      isBackupFile (outputPathOf connector opts) = true) := by
  refine ⟨by decide, ?_, ?_, ?_⟩
  · intro connector opts hk
    rw [outputPathOf_eq, hk]
    have h := isBackupFile_archive opts.OutputPath
    cases opts.Compress
    · simpa [specExtension] using h.1
    · simpa [specExtension] using h.2
  · intro connector opts h1 h2 h3 h4
    rw [outputPathOf_eq]
    have h := isBackupFile_fallback opts.OutputPath
    cases opts.Compress
    · simpa [specExtension, h1, h2, h3, h4] using h.1
    · simpa [specExtension, h1, h2, h3, h4] using h.2
  · intro connector opts hk
    rw [outputPathOf_eq]
    have h := isBackupFile_sql opts.OutputPath
    cases opts.Compress
    · simpa [specExtension, hk] using h.1
    · simpa [specExtension, hk] using h.2

theorem wrapInt64_id (x : Int) (h1 : -2 ^ 63 ≤ x) (h2 : x < 2 ^ 63) : wrapInt64 x = x := by
  unfold wrapInt64
  omega

theorem formatBytesLoop_spec (bytes : Int) (hb : bytes < 2 ^ 63) (n div : Int) (exp : Nat) :
    1 ≤ n → 0 < div → div * n ≤ bytes → bytes < div * (n + 1) → div = 1024 ^ (exp + 1) →
      (formatBytesLoop n div exp).1 = 1024 ^ ((formatBytesLoop n div exp).2 + 1) ∧
      (formatBytesLoop n div exp).1 ≤ bytes ∧
      bytes < 1024 * (formatBytesLoop n div exp).1 := by
  induction n, div, exp using formatBytesLoop.induct with
  | case1 n div exp h ih =>
    intro h1 hd hlo hhi hpow
    have hn : (1024 : Int) ≤ n := h
    rw [formatBytesLoop, dif_pos h]
    have hq : Int.tdiv n unit = n / 1024 := Int.tdiv_eq_ediv (by omega) (by decide)
    have hq1 : 1 ≤ n / 1024 := by omega
    have hq2 : 1024 * (n / 1024) ≤ n := by omega
    have hq3 : n + 1 ≤ 1024 * (n / 1024 + 1) := by omega
    have hm1 : div * (1024 * (n / 1024)) ≤ div * n :=
      mul_le_mul_of_nonneg_left hq2 (le_of_lt hd)
    have hm2 : div * (n + 1) ≤ div * (1024 * (n / 1024 + 1)) :=
      mul_le_mul_of_nonneg_left hq3 (le_of_lt hd)
    have hm3 : div * 1024 ≤ div * n := mul_le_mul_of_nonneg_left hn (le_of_lt hd)
    have hw : wrapInt64 (div * unit) = div * 1024 :=
      wrapInt64_id (div * 1024) (by omega) (by omega)
    rw [hw, hq] at ih
    rw [hw, hq]
    apply ih
    · exact hq1
    · omega
    · calc div * 1024 * (n / 1024) = div * (1024 * (n / 1024)) := by ring
        _ ≤ div * n := hm1
        _ ≤ bytes := hlo
    · calc bytes < div * (n + 1) := hhi
        _ ≤ div * (1024 * (n / 1024 + 1)) := hm2
        _ = div * 1024 * (n / 1024 + 1) := by ring
    · rw [hpow]; ring
  | case2 n div exp h =>
    intro h1 hd hlo hhi hpow
    have hn : n < 1024 := by
      have : ¬ (1024 : Int) ≤ n := h
      omega
    rw [formatBytesLoop, dif_neg h]
    refine ⟨hpow, ?_, ?_⟩
    · calc div = div * 1 := by ring
        _ ≤ div * n := mul_le_mul_of_nonneg_left h1 (le_of_lt hd)
        _ ≤ bytes := hlo
    · have hm : div * (n + 1) ≤ div * 1024 :=
        mul_le_mul_of_nonneg_left (by omega) (le_of_lt hd)
      calc bytes < div * (n + 1) := hhi
        _ ≤ div * 1024 := hm
        _ = 1024 * div := by ring

theorem exp_le_five (e : Nat) (h : (1024 : Int) ^ (e + 1) < 2 ^ 63) : e ≤ 5 := by
  by_contra hc
  have h7 : 7 ≤ e + 1 := by omega
  have hp : (1024 : Int) ^ 7 ≤ 1024 ^ (e + 1) := pow_le_pow_right₀ (by norm_num) h7
  have h70 : (2 : Int) ^ 63 < 1024 ^ 7 := by norm_num
  omega

/-- C18: for an `int64` byte count below 1024 `formatBytes` returns its decimal
rendering followed by ` B`; from 1024 on the loop exits with `exp` at most 5, so that
the index into `KMGTPE` is in range and nothing panics, with `div` equal to
1024^(exp+1) although every product is taken in `int64`, `div` at most 2^60, and
`div ≤ n < 1024 * div`. -/
theorem C18_formatBytes_in_range (n : Int) (_hlo : -2 ^ 63 ≤ n) (hhi : n < 2 ^ 63) :
    (n < 1024 → formatBytes n = some (Formatted.text (sprintfD n ++ " B"))) ∧
    (1024 ≤ n →
      ∃ (div : Int) (exp : Nat) (c : Char),
        formatBytesLoop (Int.tdiv n unit) unit 0 = (div, exp) ∧
        exp ≤ 5 ∧ "KMGTPE".data[exp]? = some c ∧
        formatBytes n = some (Formatted.scaled n div c) ∧
        div = 1024 ^ (exp + 1) ∧ div ≤ 2 ^ 60 ∧ div ≤ n ∧ n < 1024 * div) := by
  constructor
  · intro h
    have h1 : n < unit := h
    simp [formatBytes, h1]
  · intro h
    have hq : Int.tdiv n unit = n / 1024 := Int.tdiv_eq_ediv (by omega) (by decide)
    have hs := formatBytesLoop_spec n hhi (Int.tdiv n unit) unit 0
      (by rw [hq]; omega) (by decide)
      (by rw [hq]; show 1024 * (n / 1024) ≤ n; omega)
      (by rw [hq]; show n < 1024 * (n / 1024 + 1); omega) (by norm_num)
    generalize hr : formatBytesLoop (Int.tdiv n unit) unit 0 = r at hs
    obtain ⟨div, exp⟩ := r
    simp only at hs
    obtain ⟨hpow, hle, hlt⟩ := hs
    have he : exp ≤ 5 := exp_le_five exp (by rw [← hpow]; omega)
    have hc : ∃ c, "KMGTPE".data[exp]? = some c := by
      interval_cases exp <;> simp
    obtain ⟨c, hc⟩ := hc
    have h60 : div ≤ 2 ^ 60 := by
      rw [hpow]
      interval_cases exp <;> norm_num
    refine ⟨div, exp, c, rfl, he, hc, ?_, hpow, h60, hle, hlt⟩
    have h1 : ¬ n < unit := by
      show ¬ n < 1024
      omega
    simp [formatBytes, h1, hr, hc]

/-- A byte count of five mebibytes: the loop exits with `div` = 1024^2 and `exp` = 1. -/
theorem C18_formatBytes_in_range_witness :
    ∃ (div : Int) (exp : Nat) (c : Char),
      formatBytesLoop (Int.tdiv 5242880 unit) unit 0 = (div, exp) ∧
      exp ≤ 5 ∧ "KMGTPE".data[exp]? = some c ∧
      formatBytes 5242880 = some (Formatted.scaled 5242880 div c) ∧
      div = 1024 ^ (exp + 1) ∧ div ≤ 2 ^ 60 ∧ div ≤ 5242880 ∧ 5242880 < 1024 * div :=
  (C18_formatBytes_in_range 5242880 (by decide) (by decide)).2 (by decide)

theorem backup_body_success (gz : Gzip) (io : IOFaults) (connector : Connector)
    (opts : Options) (fs : FS) (r : Result) (file : Nat) (fs1 : FS)
    (hr : (Backup gz io connector opts fs).result = some r)
    (hc : osCreate io fs (outputPathOf connector opts) = Except.ok (file, fs1)) :
    ∃ w fs2,
      backupBody gz io connector opts (outputPathOf connector opts) file fs1 =
        ((some r, none), w, fs2) ∧
      backupDeferred gz io w file fs2 = fs2 ∧
      (Backup gz io connector opts fs).fs = fs2 ∧
      osStat io fs2 (outputPathOf connector opts) = Except.ok r.Size ∧
      (opts.Compress = true → ∃ gw, w = some gw ∧ gw.closed = true ∧ gw.err = none ∧
        gw.buf = connector.Backup.written) ∧
      (opts.Compress = false → w = none) := by
  unfold Backup at hr ⊢
  simp only [hc] at hr ⊢
  unfold backupBody connectorBackup at hr ⊢
  unfold backupDeferred fileClose
  revert hr
  cases opts.Compress <;> cases connector.Backup.err <;> cases hf : io.flush <;>
    simp [hf, GzWriter.Close, gzipNewWriter, GzWriter.Write] <;>
    split <;> simp <;> (intro hr; subst hr; refine ⟨_, _, ⟨rfl, rfl, rfl⟩, ?_⟩; simp_all)

/-- C17: after a successful `Service.Backup`, with or without compression, `Size` is
the length of the file linked at `FilePath` when `Backup` has returned. The size is
read by `os.Stat` from the file system the body ends with; with compression the gzip
writer is by then closed without error, and the deferred calls (the second `Close` of
the gzip writer and the `Close` of the file) leave that file system unchanged. -/
theorem C17_size_measured_after_finalize (gz : Gzip) (io : IOFaults) (connector : Connector)
    (opts : Options) (fs : FS) (r : Result)
    (hr : (Backup gz io connector opts fs).result = some r) :
    (∃ file, (Backup gz io connector opts fs).fs.dir r.FilePath = some file ∧
      r.Size = ((Backup gz io connector opts fs).fs.data file).length ∧
      (Backup gz io connector opts fs).fs.data file =
        (if opts.Compress then gz.compress connector.Backup.written
          else connector.Backup.written)) ∧
    (∃ file fs1 w fs2,
      osCreate io fs (outputPathOf connector opts) = Except.ok (file, fs1) ∧
      backupBody gz io connector opts (outputPathOf connector opts) file fs1 =
        ((some r, none), w, fs2) ∧
      osStat io fs2 r.FilePath = Except.ok r.Size ∧
      backupDeferred gz io w file fs2 = fs2 ∧
      (Backup gz io connector opts fs).fs = fs2 ∧
      (opts.Compress = true → ∃ gw, w = some gw ∧ gw.closed = true ∧ gw.err = none)) := by
  obtain ⟨h1, -, file, h2, h3, h4⟩ := backup_success gz io connector opts fs r hr
  refine ⟨⟨file, by rw [h1]; exact h2, h4, h3⟩, ?_⟩
  have hc : io.create = none := by
    cases hio : io.create with
    | none => rfl
    | some e =>
      unfold Backup at hr
      simp [osCreate_error io fs _ e hio] at hr
  obtain ⟨cfile, fs1, hcreate, -, -⟩ := osCreate_ok io fs (outputPathOf connector opts) hc
  obtain ⟨w, fs2, hb, hd, hfs, hstat, hgz, -⟩ :=
    backup_body_success gz io connector opts fs r cfile fs1 hr hcreate
  refine ⟨cfile, fs1, w, fs2, hcreate, hb, by rw [h1]; exact hstat, hd, hfs, ?_⟩
  intro hcmp
  obtain ⟨gw, hw, hclosed, herr, -⟩ := hgz hcmp
  exact ⟨gw, hw, hclosed, herr⟩

/-- A compressed sqlite backup of three bytes through the stand-in codec: the reported
size, 5, is the length of the file linked at the artifact path afterwards. -/
theorem C17_size_measured_after_finalize_witness :
    ∃ file,
      (Backup storedGzip IOFaults.ok (fixedConnector "sqlite" [7, 8, 9] none)
        { BackupType := "full", OutputPath := "/tmp/size", Compress := true }
        emptyFS).fs.dir "/tmp/size.sql.gz" = some file ∧
      (5 : Int) =
        ((Backup storedGzip IOFaults.ok (fixedConnector "sqlite" [7, 8, 9] none)
          { BackupType := "full", OutputPath := "/tmp/size", Compress := true }
          emptyFS).fs.data file).length :=
  match (C17_size_measured_after_finalize storedGzip IOFaults.ok
      (fixedConnector "sqlite" [7, 8, 9] none)
      { BackupType := "full", OutputPath := "/tmp/size", Compress := true } emptyFS
      { FilePath := "/tmp/size.sql.gz", Size := 5 } (by decide)).1 with
  | ⟨file, h1, h2, _⟩ => ⟨file, h1, h2⟩

end MasstDB
